import Mathlib

/-!
Verification development for the GrantFinder grant-matching system.

The repository ships a Next.js frontend (typed result structures, the
results page, match cards and sections, and a demo fallback that
fabricates match results) together with product documentation for a
backend Grant Matching & Scoring Engine.  The frontend structures and
components below are embedded directly from the TypeScript source; the
scoring engine itself is not present in the repository, so it is
modelled from the specification (each such definition is marked
`Modelled from the spec:`).
-/

set_option maxHeartbeats 1000000
set_option linter.unusedVariables false
set_option linter.unreachableTactic false
set_option linter.unnecessarySeqFocus false
set_option linter.unusedTactic false

namespace GrantFinder

/-! ## Frontend data model, embedded from frontend/src/types/index.ts -/

/-- Confidence level of an extracted need (types/index.ts, ExtractedNeed.confidence). -/
inductive Confidence where
  | high
  | medium
  | low
deriving DecidableEq, Repr

/-- Source type of an extracted need (types/index.ts, ExtractedNeed.source_type). -/
inductive SourceType where
  | document
  | website
  | questionnaire
  | free_form
deriving DecidableEq, Repr

/-- ExtractedNeed from types/index.ts. -/
structure ExtractedNeed where
  need : String
  source : String
  source_type : SourceType
  quote : Option String := none
  confidence : Confidence
  category : Option String := none
deriving DecidableEq, Repr

/-- Volunteer capacity tier (types/index.ts, capacity_indicators.volunteer_capacity). -/
inductive VolunteerCapacity where
  | high
  | medium
  | low
  | unknown
deriving DecidableEq, Repr

/-- organization_facts of OrganizationProfile from types/index.ts. -/
structure OrganizationFacts where
  name : String
  org_type : String
  is_501c3 : Bool
  in_catholic_directory : Bool
  diocese : Option String := none
  state : Option String := none
  location_type : Option String := none
  founded_year : Option Nat := none
  building_age_years : Option Nat := none
  parish_families : Option Nat := none
  student_count : Option Nat := none
  school_grades : Option String := none
deriving DecidableEq, Repr

/-- capacity_indicators of OrganizationProfile from types/index.ts. -/
structure CapacityIndicators where
  staff_mentioned : List String
  active_ministries : Nat
  programs : List String
  volunteer_capacity : VolunteerCapacity
deriving DecidableEq, Repr

/-- OrganizationProfile from types/index.ts. -/
structure OrganizationProfile where
  organization_facts : OrganizationFacts
  needs_and_projects : List ExtractedNeed
  capacity_indicators : CapacityIndicators
  special_characteristics : List String
deriving DecidableEq, Repr

/-- score_label values of GrantMatch from types/index.ts. -/
inductive ScoreLabel where
  | excellent
  | good
  | possible
  | weak
  | not_eligible
deriving DecidableEq, Repr

/-- GrantMatch from types/index.ts. -/
structure GrantMatch where
  grant_id : Nat
  grant_name : String
  granting_authority : Option String := none
  score : Nat
  score_label : ScoreLabel
  amount_display : String
  deadline_display : String
  deadline_urgent : Bool
  why_it_fits : String
  eligibility_notes : List String
  verify_items : List String
  apply_url : Option String := none
  eligibility_score : Nat
  need_alignment_score : Nat
  capacity_score : Nat
  timing_score : Nat
  completeness_score : Nat
deriving DecidableEq, Repr

/-- MatchResults from types/index.ts: the stable result structure the
frontend consumes; its per-tier data are full lists of GrantMatch. -/
structure MatchResults where
  session_id : Nat
  grants_evaluated : Nat
  excellent_matches : List GrantMatch
  good_matches : List GrantMatch
  possible_matches : List GrantMatch
  weak_matches : List GrantMatch
  not_eligible : List GrantMatch
  created_at : String
deriving DecidableEq, Repr

/-! ## MatchSection, embedded from components/matches/MatchSection.tsx -/

/-- The list of match cards a MatchSection renders:
`const visibleMatches = showAll ? matches : matches.slice(0, 3)`
(MatchSection.tsx line 20). -/
def visibleMatches (showAll : Bool) (matchList : List GrantMatch) : List GrantMatch :=
  if showAll then matchList else matchList.take 3

/-- What a MatchSection displays, embedded from MatchSection.tsx:
it returns none when the match list is empty (line 18), otherwise the
count shown in the header `({matches.length})` (line 27), the visible
cards, and whether the Show-more button is offered
(`matches.length > 3 && !showAll`, line 43). -/
structure SectionView where
  header_count : Nat
  visible : List GrantMatch
  show_more_offered : Bool
deriving DecidableEq, Repr

/-- MatchSection rendering as a function of its showAll state and its
matches prop (MatchSection.tsx lines 14-53). -/
def matchSectionView (showAll : Bool) (matchList : List GrantMatch) : Option SectionView :=
  if matchList.length = 0 then none
  else some { header_count := matchList.length
              visible := visibleMatches showAll matchList
              show_more_offered := decide (matchList.length > 3) && !showAll }

/-! ## ResultsPage, embedded from the results page (src/unnamed/part_000) -/

/-- The sortBy state of ResultsPage:
`useState<'score' | 'deadline' | 'amount'>('score')` (part_000 line 93). -/
inductive SortOption where
  | score
  | deadline
  | amount
deriving DecidableEq, Repr

/-- The sequence of (title, matches) pairs ResultsPage passes to
MatchSection components (part_000 lines 324-358): four fixed sections
fed straight from the tier lists of matchResults, plus the Not Eligible
section only when that list is nonempty.  The sortBy state is in scope
on the page (line 93) but is never applied to the lists, so it appears
here as an unused parameter, exactly as in the source. -/
def renderedSections (sortBy : SortOption) (r : MatchResults) :
    List (String × List GrantMatch) :=
  [("Excellent Matches (85-100%)", r.excellent_matches),
   ("Good Matches (70-84%)", r.good_matches),
   ("Possible Matches (50-69%)", r.possible_matches),
   ("Weak Matches (25-49%)", r.weak_matches)] ++
  (if r.not_eligible.length > 0 then [("Not Eligible (0-24%)", r.not_eligible)] else [])

/-! ## Demo matching results, embedded from the one-page wizard
(src/unnamed/part_002): `runMatching` falls back to
`generateDemoMatches()` when the backend call fails (lines 918-934),
and those demo matches carry a score_breakdown object (lines 944-999). -/

/-- score_breakdown shape of the demo matches (part_002 lines 958, 976, 992). -/
structure DemoScoreBreakdown where
  eligibility_fit : Nat
  need_alignment : Nat
  capacity_signals : Nat
  timing : Nat
  completeness : Nat
deriving DecidableEq, Repr

/-- Sum of the five sub-scores of a demo breakdown. -/
def DemoScoreBreakdown.total (b : DemoScoreBreakdown) : Nat :=
  b.eligibility_fit + b.need_alignment + b.capacity_signals + b.timing + b.completeness

/-- Shape of one demo match object (part_002 lines 946-962). -/
structure DemoMatch where
  grant_id : String
  grant_name : String
  funder : String
  amount : String
  deadline : String
  url : String
  contact : String
  category : String
  geo_qualified : String
  score : Nat
  score_tier : String
  score_breakdown : DemoScoreBreakdown
  explanation : String
  evidence : List String
  is_shortlisted : Bool
deriving DecidableEq, Repr

/-- First demo match (part_002 lines 946-962). -/
def demoMatch1 : DemoMatch :=
  { grant_id := "g1"
    grant_name := "Koch Foundation - Catholic School Support"
    funder := "Koch Foundation"
    amount := "Up to $15,000"
    deadline := "May 1, 2026"
    url := "https://www.thekochfoundation.org/"
    contact := "352-373-7491"
    category := "catholic_school"
    geo_qualified := "Yes"
    score := 92
    score_tier := "excellent"
    score_breakdown :=
      { eligibility_fit := 95, need_alignment := 90, capacity_signals := 88
        timing := 95, completeness := 85 }
    explanation := "Strong alignment with Catholic education focus. Your documented need for STEM resources matches their priorities."
    evidence := ["Catholic school status confirmed", "STEM program expansion mentioned in documents"]
    is_shortlisted := false }

/-- Second demo match (part_002 lines 963-979). -/
def demoMatch2 : DemoMatch :=
  { grant_id := "g2"
    grant_name := "Raskob Foundation for Catholic Activities"
    funder := "Raskob Foundation"
    amount := "$5,000 - $25,000"
    deadline := "Rolling"
    url := "https://www.rfca.org/"
    contact := "grants@rfca.org"
    category := "church_parish"
    geo_qualified := "Yes"
    score := 88
    score_tier := "excellent"
    score_breakdown :=
      { eligibility_fit := 90, need_alignment := 85, capacity_signals := 90
        timing := 90, completeness := 80 }
    explanation := "Excellent fit for parish ministry programs. Your youth ministry expansion aligns well."
    evidence := ["501(c)(3) verified", "Youth ministry needs documented"]
    is_shortlisted := false }

/-- Third demo match (part_002 lines 980-996). -/
def demoMatch3 : DemoMatch :=
  { grant_id := "g3"
    grant_name := "FEMA Nonprofit Security Grant Program"
    funder := "FEMA"
    amount := "Up to $150,000"
    deadline := "June 15, 2026"
    url := "https://www.fema.gov/grants/preparedness/nonprofit-security"
    contact := "See website"
    category := "non_catholic"
    geo_qualified := "Yes"
    score := 85
    score_tier := "excellent"
    score_breakdown :=
      { eligibility_fit := 85, need_alignment := 80, capacity_signals := 90
        timing := 85, completeness := 90 }
    explanation := "Security concerns documented in your profile make this a strong match."
    evidence := ["Security improvements needed per finance council minutes"]
    is_shortlisted := false }

/-- generateDemoMatches from part_002 lines 944-999: the match list the
wizard's runMatching installs as its demo fallback results. -/
def generateDemoMatches : List DemoMatch :=
  [demoMatch1, demoMatch2, demoMatch3]

/-! ## The Grant Matching & Scoring Engine

The engine itself (the backend behind `/api/matching/...` and
`/api/processing/match-grants`) is not part of the repository source;
only its callers and result types are.  The definitions below are
modelled from the specification of the engine. -/

/-- Modelled from the spec: the deadline of a GrantRecord is a specific
date, the sentinel rolling, or the sentinel unknown (spec data model and
grant-ingestion interface); dates are day numbers relative to the same
scale as the injected evaluation time. -/
inductive Deadline where
  | onDate (day : Nat)
  | rolling
  | unknown
deriving DecidableEq, Repr

/-- Modelled from the spec: grant.geographic_restriction is either null
(no restriction), a single region/state, or a negative rule excluding a
region (Eligibility Evaluator, geographic restriction logic). -/
inductive GeoRule where
  | noRestriction
  | onlyRegion (region : String)
  | excludesRegion (region : String)
deriving DecidableEq, Repr

/-- Modelled from the spec: the EligibilityRules object of a GrantRecord
(data model): boolean/enum predicates plus free-text soft requirements. -/
structure EligibilityRules where
  requires_501c3 : Bool := false
  requires_catholic_directory : Bool := false
  geographic_restriction : GeoRule := GeoRule.noRestriction
  school_required : Bool := false
  other_requirements : List String := []
deriving DecidableEq, Repr

/-- Modelled from the spec: a GrantRecord as consumed by the missing
engine (data model): identity, deadline, amount range, eligibility
rules, funds_for purpose tags and descriptive text. -/
structure GrantRecord where
  name : String
  funder : String
  description : String
  deadline : Deadline
  amount_min : Option Nat := none
  amount_max : Option Nat := none
  eligibility : EligibilityRules
  funds_for : List String
deriving DecidableEq, Repr

/-- Modelled from the spec: the structured profile facts the Eligibility
Evaluator checks hard predicates against; each fact can be present or
absent/unknown (Eligibility Evaluator: a present predicate whose profile
fact is absent is unverifiable, not disqualifying). -/
structure EngineFacts where
  is_501c3 : Option Bool := none
  in_catholic_directory : Option Bool := none
  state : Option String := none
  has_school : Option Bool := none
deriving DecidableEq, Repr

/-- Modelled from the spec: the engine's view of an OrganizationProfile
(data model): facts, extracted needs, free-form notes and capacity
indicators. -/
structure EngineProfile where
  facts : EngineFacts
  needs : List ExtractedNeed
  free_form_notes : Option String := none
  capacity : CapacityIndicators
deriving DecidableEq, Repr

/-- Lower-cased copy of a character (ASCII). -/
def lowerChar (c : Char) : Char :=
  if c.isUpper then Char.ofNat (c.toNat + 32) else c

/-- The space character, written without a character literal. -/
def spaceChar : Char := Char.ofNat 32

/-- Modelled from the spec: normalisation used for the case/whitespace
insensitive comparison of geographic regions (Eligibility Evaluator):
drop spaces and lower-case. -/
def normalizeRegion (s : String) : String :=
  String.mk ((s.toList.filter (fun c => !(c == spaceChar))).map lowerChar)

/-- Split a character list into space-separated words (accumulator is
the reversed current word). -/
def wordsAux : List Char → List Char → List (List Char)
  | [], acc => if acc.isEmpty then [] else [acc.reverse]
  | c :: cs, acc =>
    if c == spaceChar then
      if acc.isEmpty then wordsAux cs [] else acc.reverse :: wordsAux cs []
    else wordsAux cs (c :: acc)

/-- The lower-cased words of a string. -/
def wordList (s : String) : List String :=
  (wordsAux s.toList []).map (fun l => String.mk (l.map lowerChar))

/-- Modelled from the spec: status of one hard eligibility predicate
against the profile (Eligibility Evaluator: met, contradicted, or
unverifiable because the profile fact is absent). -/
inductive PredStatus where
  | met
  | contradicted
  | unverifiable
deriving DecidableEq, Repr

/-- Status of a boolean hard predicate given the corresponding profile fact. -/
def statusOfFact : Option Bool → PredStatus
  | some true => PredStatus.met
  | some false => PredStatus.contradicted
  | none => PredStatus.unverifiable

/-- A named boolean hard predicate check, present only when the grant
requires it. -/
def boolCheck (nm : String) (required : Bool) (fact : Option Bool) :
    List (String × PredStatus) :=
  if required then [(nm, statusOfFact fact)] else []

/-- Modelled from the spec: geographic restriction logic (Eligibility
Evaluator): null means no restriction; a single region is met iff the
profile state equals it case/whitespace-insensitively; an excludes rule
is unmet if the profile state matches the excluded value; an absent
profile state makes the predicate unverifiable. -/
def geoCheck (rule : GeoRule) (st : Option String) : List (String × PredStatus) :=
  match rule with
  | GeoRule.noRestriction => []
  | GeoRule.onlyRegion r =>
    [("geographic_restriction",
      match st with
      | none => PredStatus.unverifiable
      | some s => if normalizeRegion s = normalizeRegion r then PredStatus.met
                  else PredStatus.contradicted)]
  | GeoRule.excludesRegion r =>
    [("geographic_restriction",
      match st with
      | none => PredStatus.unverifiable
      | some s => if normalizeRegion s = normalizeRegion r then PredStatus.contradicted
                  else PredStatus.met)]

/-- Modelled from the spec: the hard predicates present on a grant,
each classified against the profile facts (Eligibility Evaluator: 501c3
status, Catholic-directory listing, geographic restriction,
school-required). -/
def hardPredicateChecks (facts : EngineFacts) (e : EligibilityRules) :
    List (String × PredStatus) :=
  boolCheck ("requires_501c3") e.requires_501c3 facts.is_501c3 ++
  boolCheck ("requires_catholic_directory") e.requires_catholic_directory
    facts.in_catholic_directory ++
  geoCheck e.geographic_restriction facts.state ++
  boolCheck ("school_required") e.school_required facts.has_school

/-- Modelled from the spec: result of the Eligibility Evaluator contract
evaluate(profile, grant.eligibility). -/
structure EligResult where
  disqualified : Bool
  met : List String
  unverifiable : List String
  fit_score : Nat
deriving DecidableEq, Repr

/-- Modelled from the spec: the Eligibility Evaluator.  A contradicted
hard predicate disqualifies and forces fit_score to 0; otherwise each of
the N present hard predicates contributes its equal share of the
40-point budget when met, with unverifiable predicates awarded zero for
their share; soft free-text requirements never disqualify and are
surfaced as unverifiable. -/
def evaluateEligibility (facts : EngineFacts) (e : EligibilityRules) : EligResult :=
  let checks := hardPredicateChecks facts e
  let disq := checks.any (fun c => c.2 == PredStatus.contradicted)
  let metNames := (checks.filter (fun c => c.2 == PredStatus.met)).map (fun c => c.1)
  let unver := (checks.filter (fun c => c.2 == PredStatus.unverifiable)).map (fun c => c.1)
      ++ e.other_requirements
  let fit := if disq then 0
    else if checks.length = 0 then 40
    else (40 * metNames.length) / checks.length
  { disqualified := disq, met := metNames, unverifiable := unver, fit_score := fit }

/-- Modelled from the spec: per-need match strength of the Need-Alignment
Scorer, one of none, weak, strong. -/
inductive Strength where
  | strong
  | weak
  | none
deriving DecidableEq, Repr

/-- All words of the tag occur among the words of the need text (and the
tag is nonempty): the lexical overlap used for a strong tag match. -/
def tagMatches (needText tag : String) : Bool :=
  let nw := wordList needText
  let tw := wordList tag
  !tw.isEmpty && tw.all (fun w => nw.contains w)

/-- The two strings share at least one word. -/
def sharesWord (a b : String) : Bool :=
  (wordList a).any (fun w => (wordList b).contains w)

/-- Modelled from the spec: the textual/topical overlap of one
ExtractedNeed against the grant funds_for tags and description keywords
(Need-Alignment Scorer; keyword overlap and tag intersection are
explicitly acceptable implementations).  A funds_for tag fully covered
by the need text is a strong match; any shared keyword with a tag or
with the description is a weak match; otherwise none. -/
def needStrength (n : ExtractedNeed) (g : GrantRecord) : Strength :=
  if g.funds_for.any (fun t => tagMatches n.need t) then Strength.strong
  else if g.funds_for.any (fun t => sharesWord n.need t) || sharesWord n.need g.description
    then Strength.weak
  else Strength.none

/-- Modelled from the spec: per-need contribution to the 30-point
need-alignment budget.  High confidence contributes full weight, medium
a reduced weight, low a further-reduced weight, and a single need is
capped at half of the branch budget (no more than 15 of 30). -/
def needContribution (s : Strength) (c : Confidence) : Nat :=
  match s, c with
  | Strength.strong, Confidence.high => 15
  | Strength.strong, Confidence.medium => 10
  | Strength.strong, Confidence.low => 6
  | Strength.weak, Confidence.high => 8
  | Strength.weak, Confidence.medium => 5
  | Strength.weak, Confidence.low => 3
  | Strength.none, _ => 0

/-- Modelled from the spec: alignment_score = min(30, sum of per-need
contributions) (Need-Alignment Scorer). -/
def needAlignmentScore (needs : List ExtractedNeed) (g : GrantRecord) : Nat :=
  min 30 ((needs.map (fun n => needContribution (needStrength n g) n.confidence)).sum)

/-- Modelled from the spec: the point schedule on the declared volunteer
capacity tier (Capacity Scorer: high full, medium partial, low/unknown
minimal, monotonic in the tier). -/
def volunteerPoints : VolunteerCapacity → Nat
  | VolunteerCapacity.high => 7
  | VolunteerCapacity.medium => 4
  | VolunteerCapacity.low => 1
  | VolunteerCapacity.unknown => 1

/-- Modelled from the spec: the Capacity Scorer (0..15), a small fixed
point schedule over nonzero active_ministries, nonzero programs and the
volunteer capacity tier, summing to at most 15. -/
def capacityScore (ci : CapacityIndicators) : Nat :=
  (if ci.active_ministries > 0 then 4 else 0) +
  (if ci.programs.length > 0 then 4 else 0) +
  volunteerPoints ci.volunteer_capacity

/-- Modelled from the spec: output of the Timing Scorer: the 0..10
timing sub-score plus the urgent and expired flags. -/
structure TimingResult where
  timing : Nat
  urgent : Bool
  expired : Bool
deriving DecidableEq, Repr

/-- Modelled from the spec: the Timing Scorer, rules in priority order:
a passed deadline gives 0 and flags expired; a rolling deadline gives
the full 10; a deadline within the 30-day urgent window gives a reduced
mid-value and flags urgent; a comfortably-future deadline gives the full
10; an unknown deadline gives a conservative mid-value. -/
def timingScore (d : Deadline) (now : Nat) : TimingResult :=
  match d with
  | Deadline.onDate day =>
    if day < now then { timing := 0, urgent := false, expired := true }
    else if day ≤ now + 30 then { timing := 5, urgent := true, expired := false }
    else { timing := 10, urgent := false, expired := false }
  | Deadline.rolling => { timing := 10, urgent := false, expired := false }
  | Deadline.unknown => { timing := 5, urgent := false, expired := false }

/-- Modelled from the spec: the Completeness Scorer (0..5), a coverage
ratio over a fixed checklist (org facts present, at least one need,
free-form notes present, at least one document-sourced need) scaled to
the 5-point budget. -/
def completenessScore (p : EngineProfile) : Nat :=
  let items : List Bool :=
    [p.facts.is_501c3.isSome || p.facts.state.isSome,
     !p.needs.isEmpty,
     p.free_form_notes.isSome,
     p.needs.any (fun n => n.source_type == SourceType.document)]
  (5 * items.count true) / 4

/-- Modelled from the spec: tier thresholds with inclusive lower bounds
(Score Aggregator and Tier Classifier): 85 excellent, 70 good, 50
possible, 25 weak, otherwise not_eligible. -/
def tierOf (total : Nat) : ScoreLabel :=
  if 85 ≤ total then ScoreLabel.excellent
  else if 70 ≤ total then ScoreLabel.good
  else if 50 ≤ total then ScoreLabel.possible
  else if 25 ≤ total then ScoreLabel.weak
  else ScoreLabel.not_eligible

/-- Modelled from the spec: the ScoreBreakdown of the data model: five
named sub-scores. -/
structure ScoreBreakdown where
  eligibility_fit : Nat
  need_alignment : Nat
  capacity_signals : Nat
  timing : Nat
  completeness : Nat
deriving DecidableEq, Repr

/-- Modelled from the spec: derived total = sum of the five sub-scores
(Score Aggregator). -/
def ScoreBreakdown.total (b : ScoreBreakdown) : Nat :=
  b.eligibility_fit + b.need_alignment + b.capacity_signals + b.timing + b.completeness

/-- Modelled from the spec: one MatchResult of the data model: grant,
breakdown, tier label, eligibility evidence and the urgency/expiry
flags. -/
structure MatchResult where
  grant : GrantRecord
  breakdown : ScoreBreakdown
  tier : ScoreLabel
  disqualified : Bool
  met : List String
  unverifiable : List String
  urgent : Bool
  expired : Bool
deriving DecidableEq, Repr

/-- Modelled from the spec: evaluation of one grant against one profile.
A disqualified grant short-circuits to tier not_eligible with
need/capacity/timing reported as 0 rather than computed; otherwise the
four remaining scorers run, the total is the sum, and the tier is the
threshold classification of the total. -/
def matchOne (p : EngineProfile) (g : GrantRecord) (now : Nat) : MatchResult :=
  let e := evaluateEligibility p.facts g.eligibility
  if e.disqualified then
    { grant := g
      breakdown := { eligibility_fit := 0, need_alignment := 0, capacity_signals := 0
                     timing := 0, completeness := completenessScore p }
      tier := ScoreLabel.not_eligible
      disqualified := true
      met := e.met
      unverifiable := e.unverifiable
      urgent := false
      expired := false }
  else
    let t := timingScore g.deadline now
    let b : ScoreBreakdown :=
      { eligibility_fit := e.fit_score
        need_alignment := needAlignmentScore p.needs g
        capacity_signals := capacityScore p.capacity
        timing := t.timing
        completeness := completenessScore p }
    { grant := g
      breakdown := b
      tier := tierOf b.total
      disqualified := false
      met := e.met
      unverifiable := e.unverifiable
      urgent := t.urgent
      expired := t.expired }

/-- Modelled from the spec: deadline urgency rank used as the secondary
sort key (more urgent sorts first under an ascending rank). -/
def urgencyRank (g : GrantRecord) (now : Nat) : Nat :=
  match g.deadline with
  | Deadline.onDate day => if day < now then 0 else if day ≤ now + 30 then 1 else 2
  | Deadline.rolling => 3
  | Deadline.unknown => 4

/-- Modelled from the spec: tie-break ordering within a tier: primary
key descending total score, secondary key ascending urgency rank,
tertiary key grant name lexical order. -/
def resultLE (now : Nat) (a b : MatchResult) : Bool :=
  if a.breakdown.total == b.breakdown.total then
    if urgencyRank a.grant now == urgencyRank b.grant now then
      decide (a.grant.name ≤ b.grant.name)
    else decide (urgencyRank a.grant now ≤ urgencyRank b.grant now)
  else decide (b.breakdown.total < a.breakdown.total)

/-- Insertion of one result into a list sorted by le. -/
def insertSorted (le : MatchResult → MatchResult → Bool) (x : MatchResult) :
    List MatchResult → List MatchResult
  | [] => [x]
  | y :: ys => if le x y then x :: y :: ys else y :: insertSorted le x ys

/-- Insertion sort on match results. -/
def insertionSort (le : MatchResult → MatchResult → Bool) :
    List MatchResult → List MatchResult
  | [] => []
  | x :: xs => insertSorted le x (insertionSort le xs)

/-- Modelled from the spec: the MatchRunResult of the data model: total
grants evaluated plus the five ordered tier buckets. -/
structure MatchRunResult where
  total_evaluated : Nat
  excellent : List MatchResult
  good : List MatchResult
  possible : List MatchResult
  weak : List MatchResult
  not_eligible : List MatchResult
deriving DecidableEq, Repr

/-- Modelled from the spec: the Batch Matching Orchestrator core
runMatching(profile, grants, now): evaluate every grant, sort
deterministically by the tie-break order, and partition into the five
tier buckets; the evaluation time is the injected now parameter. -/
def runMatching (p : EngineProfile) (grants : List GrantRecord) (now : Nat) :
    MatchRunResult :=
  let sorted := insertionSort (resultLE now) (grants.map (fun g => matchOne p g now))
  { total_evaluated := grants.length
    excellent := sorted.filter (fun m => m.tier == ScoreLabel.excellent)
    good := sorted.filter (fun m => m.tier == ScoreLabel.good)
    possible := sorted.filter (fun m => m.tier == ScoreLabel.possible)
    weak := sorted.filter (fun m => m.tier == ScoreLabel.weak)
    not_eligible := sorted.filter (fun m => m.tier == ScoreLabel.not_eligible) }

/-- Modelled from the spec: a raw grant record as received by the
Orchestrator before validation (error handling design: name and
description are required fields that can be missing in a malformed
record). -/
structure RawGrant where
  name : Option String
  funder : String
  description : Option String
  deadline : Deadline
  amount_min : Option Nat := none
  amount_max : Option Nat := none
  eligibility : EligibilityRules
  funds_for : List String
deriving DecidableEq, Repr

/-- Validation of a raw record into a GrantRecord; none when a required
field is missing. -/
def validateGrant (r : RawGrant) : Option GrantRecord :=
  match r.name, r.description with
  | some nm, some d =>
    some { name := nm, funder := r.funder, description := d, deadline := r.deadline
           amount_min := r.amount_min, amount_max := r.amount_max
           eligibility := r.eligibility, funds_for := r.funds_for }
  | _, _ => none

/-- Modelled from the spec: the reason code attached to a skipped
malformed record (missing name or missing description). -/
def skipReasonOf (r : RawGrant) : Option String :=
  match r.name, r.description with
  | none, _ => some ("missing_name")
  | some _, none => some ("missing_description")
  | some _, some _ => none

/-- An entry of the skipped list: the excluded record and its reason code. -/
structure SkippedRecord where
  record : RawGrant
  reason : String
deriving DecidableEq, Repr

/-- Modelled from the spec: outcome of a batch run: a distinct skipped
list next to the MatchRunResult over the well-formed records. -/
structure BatchResult where
  skipped : List SkippedRecord
  result : MatchRunResult
deriving DecidableEq, Repr

/-- Modelled from the spec: the Orchestrator entry point with the error
handling policy: a null grants argument is rejected immediately with a
clear error before any scoring; malformed records are excluded from
scoring and reported in the skipped list with a reason code while the
rest of the batch is scored. -/
def runBatch (p : EngineProfile) (grants : Option (List RawGrant)) (now : Nat) :
    Except String BatchResult :=
  match grants with
  | none => Except.error ("grants must not be null")
  | some gs =>
    Except.ok
      { skipped := gs.filterMap (fun r => (skipReasonOf r).map (fun c => ⟨r, c⟩))
        result := runMatching p (gs.filterMap validateGrant) now }

/-! ## Sample data used by concrete witnesses -/

/-- Sample capacity indicators. -/
def sampleCapacity : CapacityIndicators :=
  { staff_mentioned := [], active_ministries := 2
    programs := ["youth ministry"], volunteer_capacity := VolunteerCapacity.medium }

/-- The profile of the spec scenario: is_501c3 true and state Ohio. -/
def ohioProfile : EngineProfile :=
  { facts := { is_501c3 := some true, state := some ("Ohio") }
    needs := []
    capacity := sampleCapacity }

/-- The grant of the spec scenario: geographic restriction Texas. -/
def texasGrant : GrantRecord :=
  { name := "Texas Community Fund"
    funder := "TCF"
    description := "community support"
    deadline := Deadline.rolling
    eligibility := { geographic_restriction := GeoRule.onlyRegion ("Texas") }
    funds_for := [] }

/-- The need of the spec scenario: playground equipment replacement,
high confidence, document-sourced. -/
def playgroundNeed : ExtractedNeed :=
  { need := "playground equipment replacement"
    source := "finance council minutes"
    source_type := SourceType.document
    confidence := Confidence.high }

/-- The grant of the spec scenario: funds_for playground equipment, no
eligibility predicates. -/
def playgroundGrant : GrantRecord :=
  { name := "KaBOOM Playground Grant"
    funder := "KaBOOM"
    description := "builds playgrounds for communities"
    deadline := Deadline.rolling
    eligibility := {}
    funds_for := ["playground equipment"] }

/-- A raw grant record missing its required name field. -/
def badRaw : RawGrant :=
  { name := none
    funder := "Anonymous Fund"
    description := some ("supports communities")
    deadline := Deadline.rolling
    eligibility := {}
    funds_for := [] }

/-- A well-formed raw grant record. -/
def goodRaw : RawGrant :=
  { name := some ("Good Grant")
    funder := "GG Foundation"
    description := some ("helps parishes")
    deadline := Deadline.rolling
    eligibility := {}
    funds_for := [] }

/-- A concrete GrantMatch used to exercise the MatchSection embedding. -/
def sampleMatch (id : Nat) : GrantMatch :=
  { grant_id := id
    grant_name := "Sample Grant"
    score := 90
    score_label := ScoreLabel.excellent
    amount_display := "$10,000"
    deadline_display := "Rolling deadline"
    deadline_urgent := false
    why_it_fits := "strong fit"
    eligibility_notes := []
    verify_items := []
    eligibility_score := 38
    need_alignment_score := 25
    capacity_score := 13
    timing_score := 10
    completeness_score := 4 }

/-- Four distinct matches: one more than the slice cap of MatchSection. -/
def fourMatches : List GrantMatch :=
  [sampleMatch 1, sampleMatch 2, sampleMatch 3, sampleMatch 4]


/-! ## Helper lemmas: each sub-scorer stays within its declared budget -/

/-- Scaling a fraction m/n (with m ≤ n) of a budget a never exceeds a. -/
theorem mul_div_le_budget (a m n : Nat) (h : m ≤ n) : a * m / n ≤ a :=
  Nat.div_le_of_le_mul' (by
    calc a * m ≤ a * n := Nat.mul_le_mul (Nat.le_refl a) h
    _ = n * a := Nat.mul_comm a n)

/-- The eligibility fit score never exceeds its 40-point budget. -/
theorem evaluateEligibility_fit_le (facts : EngineFacts) (e : EligibilityRules) :
    (evaluateEligibility facts e).fit_score ≤ 40 := by
  simp only [evaluateEligibility]
  split
  · omega
  · split
    · omega
    · rename_i hlen
      apply mul_div_le_budget
      rw [List.length_map]
      exact List.length_filter_le _ _

/-- The need alignment score never exceeds its 30-point budget. -/
theorem needAlignmentScore_le (needs : List ExtractedNeed) (g : GrantRecord) :
    needAlignmentScore needs g ≤ 30 :=
  Nat.min_le_left _ _

/-- The capacity score never exceeds its 15-point budget. -/
theorem capacityScore_le (ci : CapacityIndicators) : capacityScore ci ≤ 15 := by
  have hv : volunteerPoints ci.volunteer_capacity ≤ 7 := by
    cases ci.volunteer_capacity <;> decide
  unfold capacityScore
  split <;> split <;> omega

/-- The timing score never exceeds its 10-point budget. -/
theorem timingScore_le (d : Deadline) (now : Nat) : (timingScore d now).timing ≤ 10 := by
  cases d with
  | onDate day =>
    simp only [timingScore]
    split
    · decide
    · split <;> decide
  | rolling => exact Nat.le_refl 10
  | unknown =>
    show (5 : Nat) ≤ 10
    decide

/-- The completeness score never exceeds its 5-point budget. -/
theorem completenessScore_le (p : EngineProfile) : completenessScore p ≤ 5 := by
  unfold completenessScore
  apply mul_div_le_budget 5 _ 4
  have h := List.count_le_length (a := true)
    (l := [p.facts.is_501c3.isSome || p.facts.state.isSome, !p.needs.isEmpty,
           p.free_form_notes.isSome,
           p.needs.any (fun n => n.source_type == SourceType.document)])
  simpa using h

/-! ## Claim theorems -/

/-- C1, counterexample: a match result produced by the wizard's matching
run (the demo fallback of runMatching in src/unnamed/part_002) has an
eligibility_fit sub-score of 95, far above the declared 40-point budget,
and its total score 92 is not the sum of its five sub-scores. -/
theorem demo_match_breaks_budget_invariant :
    demoMatch1 ∈ generateDemoMatches ∧
    40 < demoMatch1.score_breakdown.eligibility_fit ∧
    demoMatch1.score ≠ demoMatch1.score_breakdown.total :=
  ⟨List.mem_cons_self _ _, by decide, by decide⟩

/-- C1, amended: for every match result produced by the spec-modelled
scoring engine, the derived total equals the sum of the five sub-scores
and each sub-score lies within its declared budget (eligibility_fit in
0..40, need_alignment in 0..30, capacity_signals in 0..15, timing in
0..10, completeness in 0..5), so the total lies in 0..100; the demo
fallback matches of the frontend wizard do not satisfy this invariant. -/
theorem engine_breakdown_invariant (p : EngineProfile) (g : GrantRecord) (now : Nat) :
    (matchOne p g now).breakdown.total =
      (matchOne p g now).breakdown.eligibility_fit +
      (matchOne p g now).breakdown.need_alignment +
      (matchOne p g now).breakdown.capacity_signals +
      (matchOne p g now).breakdown.timing +
      (matchOne p g now).breakdown.completeness ∧
    (matchOne p g now).breakdown.eligibility_fit ≤ 40 ∧
    (matchOne p g now).breakdown.need_alignment ≤ 30 ∧
    (matchOne p g now).breakdown.capacity_signals ≤ 15 ∧
    (matchOne p g now).breakdown.timing ≤ 10 ∧
    (matchOne p g now).breakdown.completeness ≤ 5 ∧
    (matchOne p g now).breakdown.total ≤ 100 := by
  have h1 : (matchOne p g now).breakdown.eligibility_fit ≤ 40 := by
    simp only [matchOne]
    split
    · exact Nat.zero_le 40
    · exact evaluateEligibility_fit_le p.facts g.eligibility
  have h2 : (matchOne p g now).breakdown.need_alignment ≤ 30 := by
    simp only [matchOne]
    split
    · exact Nat.zero_le 30
    · exact needAlignmentScore_le p.needs g
  have h3 : (matchOne p g now).breakdown.capacity_signals ≤ 15 := by
    simp only [matchOne]
    split
    · exact Nat.zero_le 15
    · exact capacityScore_le p.capacity
  have h4 : (matchOne p g now).breakdown.timing ≤ 10 := by
    simp only [matchOne]
    split
    · exact Nat.zero_le 10
    · exact timingScore_le g.deadline now
  have h5 : (matchOne p g now).breakdown.completeness ≤ 5 := by
    simp only [matchOne]
    split
    · exact completenessScore_le p
    · exact completenessScore_le p
  have hsum : (matchOne p g now).breakdown.total =
      (matchOne p g now).breakdown.eligibility_fit +
      (matchOne p g now).breakdown.need_alignment +
      (matchOne p g now).breakdown.capacity_signals +
      (matchOne p g now).breakdown.timing +
      (matchOne p g now).breakdown.completeness := rfl
  refine ⟨hsum, h1, h2, h3, h4, h5, ?_⟩
  rw [hsum]
  omega

/-- C2: the tier label of a non-disqualified match result is the pure
threshold classification of the total score with inclusive lower bounds
(85 excellent, 70 good, 50 possible, 25 weak, otherwise not_eligible),
with exact boundary behaviour at 85, 84, 50, 49, 25 and 24. -/
theorem tier_thresholds :
    (∀ n : Nat, 85 ≤ n → n ≤ 100 → tierOf n = ScoreLabel.excellent) ∧
    (∀ n : Nat, 70 ≤ n → n ≤ 84 → tierOf n = ScoreLabel.good) ∧
    (∀ n : Nat, 50 ≤ n → n ≤ 69 → tierOf n = ScoreLabel.possible) ∧
    (∀ n : Nat, 25 ≤ n → n ≤ 49 → tierOf n = ScoreLabel.weak) ∧
    (∀ n : Nat, n ≤ 24 → tierOf n = ScoreLabel.not_eligible) ∧
    tierOf 85 = ScoreLabel.excellent ∧ tierOf 84 = ScoreLabel.good ∧
    tierOf 50 = ScoreLabel.possible ∧ tierOf 49 = ScoreLabel.weak ∧
    tierOf 25 = ScoreLabel.weak ∧ tierOf 24 = ScoreLabel.not_eligible ∧
    (∀ (p : EngineProfile) (g : GrantRecord) (now : Nat),
      (matchOne p g now).disqualified = false →
      (matchOne p g now).tier = tierOf (matchOne p g now).breakdown.total) := by
  refine ⟨?_, ?_, ?_, ?_, ?_, by decide, by decide, by decide, by decide, by decide, by decide, ?_⟩
  · intro n ha hb
    unfold tierOf
    split_ifs <;> first | rfl | omega
  · intro n ha hb
    unfold tierOf
    split_ifs <;> first | rfl | omega
  · intro n ha hb
    unfold tierOf
    split_ifs <;> first | rfl | omega
  · intro n ha hb
    unfold tierOf
    split_ifs <;> first | rfl | omega
  · intro n ha
    unfold tierOf
    split_ifs <;> first | rfl | omega
  · intro p g now hdq
    by_cases hc : (evaluateEligibility p.facts g.eligibility).disqualified = true
    · simp [matchOne, hc] at hdq
    · simp [matchOne, hc]

/-- C2, witness: concrete tier classifications and a concrete
non-disqualified match whose tier equals the threshold classification. -/
theorem tier_thresholds_witness :
    tierOf 90 = ScoreLabel.excellent ∧ tierOf 72 = ScoreLabel.good ∧
    tierOf 55 = ScoreLabel.possible ∧ tierOf 30 = ScoreLabel.weak ∧
    tierOf 10 = ScoreLabel.not_eligible ∧
    (matchOne ohioProfile playgroundGrant 0).tier =
      tierOf (matchOne ohioProfile playgroundGrant 0).breakdown.total := by
  obtain ⟨h1, h2, h3, h4, h5, _, _, _, _, _, _, hlink⟩ := tier_thresholds
  exact ⟨h1 90 (by decide) (by decide), h2 72 (by decide) (by decide),
         h3 55 (by decide) (by decide), h4 30 (by decide) (by decide),
         h5 10 (by decide), hlink ohioProfile playgroundGrant 0 (by decide)⟩

/-- C3: when some hard eligibility predicate on the grant is contradicted
by a present profile fact, the eligibility evaluation returns
disqualified = true with fit score forced to 0, the match is placed in
tier not_eligible, and the need, capacity and timing sub-scores are
reported as 0. -/
theorem hard_contradiction_disqualifies (p : EngineProfile) (g : GrantRecord) (now : Nat)
    (h : ∃ c ∈ hardPredicateChecks p.facts g.eligibility, c.2 = PredStatus.contradicted) :
    (evaluateEligibility p.facts g.eligibility).disqualified = true ∧
    (evaluateEligibility p.facts g.eligibility).fit_score = 0 ∧
    (matchOne p g now).disqualified = true ∧
    (matchOne p g now).tier = ScoreLabel.not_eligible ∧
    (matchOne p g now).breakdown.eligibility_fit = 0 ∧
    (matchOne p g now).breakdown.need_alignment = 0 ∧
    (matchOne p g now).breakdown.capacity_signals = 0 ∧
    (matchOne p g now).breakdown.timing = 0 := by
  have hany : (hardPredicateChecks p.facts g.eligibility).any
      (fun c => c.2 == PredStatus.contradicted) = true := by
    rw [List.any_eq_true]
    obtain ⟨c, hc, he⟩ := h
    refine ⟨c, hc, ?_⟩
    simp [he]
  refine ⟨?_, ?_, ?_, ?_, ?_, ?_, ?_, ?_⟩ <;>
    simp [matchOne, evaluateEligibility, hany]

/-- C3, witness: the spec scenario, a profile with is_501c3 true and
state Ohio against a grant restricted to Texas. -/
theorem hard_contradiction_disqualifies_witness :
    (∃ c ∈ hardPredicateChecks ohioProfile.facts texasGrant.eligibility,
      c.2 = PredStatus.contradicted) ∧
    (evaluateEligibility ohioProfile.facts texasGrant.eligibility).disqualified = true ∧
    (matchOne ohioProfile texasGrant 0).tier = ScoreLabel.not_eligible ∧
    (matchOne ohioProfile texasGrant 0).breakdown.eligibility_fit = 0 := by
  have h : ∃ c ∈ hardPredicateChecks ohioProfile.facts texasGrant.eligibility,
      c.2 = PredStatus.contradicted := by decide
  obtain ⟨h1, _, _, h4, h5, _⟩ := hard_contradiction_disqualifies ohioProfile texasGrant 0 h
  exact ⟨h, h1, h4, h5⟩

/-- C4: the matching run is deterministic in its explicit inputs: for
identical profile, grant list and injected now timestamp, two runs
produce identical MatchRunResults, including identical ordering within
each tier; the embedding takes now as an explicit parameter, so no
implicit wall clock or randomness can influence the result. -/
theorem runMatching_deterministic (p1 p2 : EngineProfile) (gs1 gs2 : List GrantRecord)
    (n1 n2 : Nat) (hp : p1 = p2) (hg : gs1 = gs2) (hn : n1 = n2) :
    runMatching p1 gs1 n1 = runMatching p2 gs2 n2 ∧
    (runMatching p1 gs1 n1).excellent = (runMatching p2 gs2 n2).excellent ∧
    (runMatching p1 gs1 n1).good = (runMatching p2 gs2 n2).good ∧
    (runMatching p1 gs1 n1).possible = (runMatching p2 gs2 n2).possible ∧
    (runMatching p1 gs1 n1).weak = (runMatching p2 gs2 n2).weak ∧
    (runMatching p1 gs1 n1).not_eligible = (runMatching p2 gs2 n2).not_eligible := by
  subst hp
  subst hg
  subst hn
  exact ⟨rfl, rfl, rfl, rfl, rfl, rfl⟩

/-- C4, witness: two runs on a concrete profile, catalog and timestamp. -/
theorem runMatching_deterministic_witness :
    runMatching ohioProfile [texasGrant, playgroundGrant] 100 =
      runMatching ohioProfile [texasGrant, playgroundGrant] 100 ∧
    (runMatching ohioProfile [texasGrant, playgroundGrant] 100).excellent =
      (runMatching ohioProfile [texasGrant, playgroundGrant] 100).excellent ∧
    (runMatching ohioProfile [texasGrant, playgroundGrant] 100).good =
      (runMatching ohioProfile [texasGrant, playgroundGrant] 100).good ∧
    (runMatching ohioProfile [texasGrant, playgroundGrant] 100).possible =
      (runMatching ohioProfile [texasGrant, playgroundGrant] 100).possible ∧
    (runMatching ohioProfile [texasGrant, playgroundGrant] 100).weak =
      (runMatching ohioProfile [texasGrant, playgroundGrant] 100).weak ∧
    (runMatching ohioProfile [texasGrant, playgroundGrant] 100).not_eligible =
      (runMatching ohioProfile [texasGrant, playgroundGrant] 100).not_eligible :=
  runMatching_deterministic ohioProfile ohioProfile [texasGrant, playgroundGrant]
    [texasGrant, playgroundGrant] 100 100 rfl rfl rfl

/-- C5: the timing sub-score is determined by the deadline relative to
the injected evaluation time, in priority order: a passed deadline gives
0 and flags expired; rolling and comfortably-future deadlines give the
full 10; a deadline within 30 days gives a value strictly below 10 and
flags urgent; an unknown deadline gives a conservative mid-value that is
neither 0 nor 10; and a non-disqualified match reports exactly the
timing scorer's output. -/
theorem timing_rules :
    (∀ now day, day < now → timingScore (Deadline.onDate day) now =
      { timing := 0, urgent := false, expired := true }) ∧
    (∀ now, timingScore Deadline.rolling now =
      { timing := 10, urgent := false, expired := false }) ∧
    (∀ now day, now + 30 < day → timingScore (Deadline.onDate day) now =
      { timing := 10, urgent := false, expired := false }) ∧
    (∀ now day, now ≤ day → day ≤ now + 30 →
      (timingScore (Deadline.onDate day) now).timing < 10 ∧
      (timingScore (Deadline.onDate day) now).urgent = true) ∧
    (∀ now, (timingScore Deadline.unknown now).timing ≠ 0 ∧
      (timingScore Deadline.unknown now).timing ≠ 10) ∧
    (∀ (p : EngineProfile) (g : GrantRecord) (now : Nat),
      (matchOne p g now).disqualified = false →
      (matchOne p g now).breakdown.timing = (timingScore g.deadline now).timing ∧
      (matchOne p g now).urgent = (timingScore g.deadline now).urgent ∧
      (matchOne p g now).expired = (timingScore g.deadline now).expired) := by
  refine ⟨?_, fun now => rfl, ?_, ?_, ?_, ?_⟩
  · intro now day h
    simp [timingScore, h]
  · intro now day h
    simp only [timingScore]
    rw [if_neg (by omega), if_neg (by omega)]
  · intro now day h1 h2
    simp only [timingScore]
    rw [if_neg (by omega), if_pos (by omega)]
    exact ⟨by decide, rfl⟩
  · intro now
    constructor
    · show (5 : Nat) ≠ 0
      decide
    · show (5 : Nat) ≠ 10
      decide
  · intro p g now hdq
    by_cases hc : (evaluateEligibility p.facts g.eligibility).disqualified = true
    · simp [matchOne, hc] at hdq
    · simp [matchOne, hc]

/-- C5, witness: concrete deadlines around a concrete evaluation time. -/
theorem timing_rules_witness :
    timingScore (Deadline.onDate 50) 100 =
      { timing := 0, urgent := false, expired := true } ∧
    timingScore Deadline.rolling 100 =
      { timing := 10, urgent := false, expired := false } ∧
    timingScore (Deadline.onDate 200) 100 =
      { timing := 10, urgent := false, expired := false } ∧
    (timingScore (Deadline.onDate 110) 100).timing < 10 ∧
    (timingScore (Deadline.onDate 110) 100).urgent = true ∧
    (timingScore Deadline.unknown 100).timing ≠ 0 ∧
    (timingScore Deadline.unknown 100).timing ≠ 10 ∧
    (matchOne ohioProfile playgroundGrant 100).breakdown.timing =
      (timingScore playgroundGrant.deadline 100).timing := by
  obtain ⟨ha, hb, hc, hd, he, hf⟩ := timing_rules
  exact ⟨ha 100 50 (by decide), hb 100, hc 100 200 (by decide),
         (hd 100 110 (by decide) (by decide)).1, (hd 100 110 (by decide) (by decide)).2,
         (he 100).1, (he 100).2,
         (hf ohioProfile playgroundGrant 100 (by decide)).1⟩

/-- C6: for otherwise-identical needs differing only in extraction
confidence, the need-alignment contribution is strictly monotone in
confidence: low contributes strictly less than medium, medium strictly
less than high, and on a single-need profile the low-confidence
alignment score is strictly below the high-confidence one. -/
theorem confidence_monotone (n : ExtractedNeed) (g : GrantRecord)
    (h : needStrength n g ≠ Strength.none) :
    needContribution (needStrength n g) Confidence.low <
      needContribution (needStrength n g) Confidence.medium ∧
    needContribution (needStrength n g) Confidence.medium <
      needContribution (needStrength n g) Confidence.high ∧
    needAlignmentScore [{ n with confidence := Confidence.low }] g <
      needAlignmentScore [{ n with confidence := Confidence.high }] g := by
  have hl : needStrength { n with confidence := Confidence.low } g = needStrength n g := rfl
  have hh : needStrength { n with confidence := Confidence.high } g = needStrength n g := rfl
  cases hstr : needStrength n g with
  | strong =>
    refine ⟨by decide, by decide, ?_⟩
    simp [needAlignmentScore, hl.trans hstr, hh.trans hstr, needContribution]
  | weak =>
    refine ⟨by decide, by decide, ?_⟩
    simp [needAlignmentScore, hl.trans hstr, hh.trans hstr, needContribution]
  | none => exact absurd hstr h

/-- C6, witness: the playground need against the playground grant, a
strong match. -/
theorem confidence_monotone_witness :
    needStrength playgroundNeed playgroundGrant ≠ Strength.none ∧
    needAlignmentScore [{ playgroundNeed with confidence := Confidence.low }]
        playgroundGrant <
      needAlignmentScore [{ playgroundNeed with confidence := Confidence.high }]
        playgroundGrant :=
  ⟨by decide, (confidence_monotone playgroundNeed playgroundGrant (by decide)).2.2⟩

/-- C7: for the empty grant catalog the matching run returns a
MatchRunResult with total_evaluated 0 and all five tier lists empty, and
the batch entry point returns a successful result rather than an error. -/
theorem empty_catalog_ok (p : EngineProfile) (now : Nat) :
    runMatching p [] now =
      { total_evaluated := 0, excellent := [], good := [], possible := [],
        weak := [], not_eligible := [] } ∧
    runBatch p (some []) now = Except.ok
      { skipped := []
        result := { total_evaluated := 0, excellent := [], good := [], possible := [],
                    weak := [], not_eligible := [] } } :=
  ⟨rfl, rfl⟩

/-- C8: a batch containing a record missing a required field excludes
that record from scoring, reports it in the skipped list with its reason
code, and scores the remaining grants; a null grants argument is
rejected immediately with a clear error. -/
theorem malformed_skipped_null_rejected :
    (∀ (p : EngineProfile) (now : Nat) (pre post : List RawGrant) (r : RawGrant)
      (code : String), skipReasonOf r = some code →
      ∃ b : BatchResult, runBatch p (some (pre ++ r :: post)) now = Except.ok b ∧
        (⟨r, code⟩ : SkippedRecord) ∈ b.skipped ∧
        b.result = runMatching p ((pre ++ post).filterMap validateGrant) now) ∧
    (∀ (p : EngineProfile) (now : Nat),
      runBatch p none now = Except.error ("grants must not be null")) := by
  refine ⟨?_, fun p now => rfl⟩
  intro p now pre post r code h
  have hv : validateGrant r = none := by
    unfold validateGrant
    unfold skipReasonOf at h
    cases hn : r.name <;> cases hd : r.description <;> simp [hn, hd] at h ⊢
  refine ⟨_, rfl, ?_, ?_⟩
  · show (⟨r, code⟩ : SkippedRecord) ∈ (pre ++ r :: post).filterMap
      (fun x => (skipReasonOf x).map (fun c => ⟨x, c⟩))
    rw [List.mem_filterMap]
    exact ⟨r, by simp, by simp [h]⟩
  · show runMatching p ((pre ++ r :: post).filterMap validateGrant) now =
      runMatching p ((pre ++ post).filterMap validateGrant) now
    have he : (pre ++ r :: post).filterMap validateGrant =
        (pre ++ post).filterMap validateGrant := by
      simp [List.filterMap_append, List.filterMap_cons, hv]
    rw [he]

/-- C8, witness: a concrete batch with a record missing its name next to
a well-formed record, and the null batch. -/
theorem malformed_skipped_null_rejected_witness :
    skipReasonOf badRaw = some ("missing_name") ∧
    (∃ b : BatchResult,
      runBatch ohioProfile (some ([] ++ badRaw :: [goodRaw])) 0 = Except.ok b ∧
      (⟨badRaw, "missing_name"⟩ : SkippedRecord) ∈ b.skipped ∧
      b.result = runMatching ohioProfile (([] ++ [goodRaw]).filterMap validateGrant) 0) ∧
    runBatch ohioProfile none 0 = Except.error ("grants must not be null") := by
  obtain ⟨h1, h2⟩ := malformed_skipped_null_rejected
  exact ⟨rfl, h1 ohioProfile 0 [] [goodRaw] badRaw ("missing_name") rfl, h2 ohioProfile 0⟩

/-- C9, counterexample: an expanded MatchSection surfaces every match in
the tier, so the number of detailed results surfaced is not bounded by
the fixed slice cap of 3: with showAll set and four matches, four cards
are rendered. -/
theorem section_cap_not_bounded :
    (visibleMatches true fourMatches).length = 4 ∧
    ¬ (∀ (showAll : Bool) (ml : List GrantMatch),
        (visibleMatches showAll ml).length ≤ 3) := by
  refine ⟨rfl, fun hall => ?_⟩
  have hle := hall true fourMatches
  have h4 : (visibleMatches true fourMatches).length = 4 := rfl
  omega

/-- C9, amended: while a section is collapsed it surfaces at most 3
detailed results and its header exposes the total count in the tier;
expanding the section surfaces the full list, so nothing is ever
dropped, but there is no separate total/returned metadata in the result
structure and the cap disappears once expanded. -/
theorem collapsed_section_cap (ml : List GrantMatch) (h : ml ≠ []) :
    (visibleMatches false ml).length ≤ 3 ∧
    visibleMatches true ml = ml ∧
    (∃ v, matchSectionView false ml = some v ∧
      v.header_count = ml.length ∧ v.visible.length ≤ 3) := by
  have h1 : (visibleMatches false ml).length ≤ 3 := by
    show (ml.take 3).length ≤ 3
    rw [List.length_take]
    exact Nat.min_le_left _ _
  refine ⟨h1, rfl, ?_⟩
  unfold matchSectionView
  rw [if_neg (by simpa [List.length_eq_zero] using h)]
  exact ⟨_, rfl, rfl, h1⟩

/-- C9, amended witness: the four-match list. -/
theorem collapsed_section_cap_witness :
    fourMatches ≠ [] ∧
    (visibleMatches false fourMatches).length ≤ 3 ∧
    visibleMatches true fourMatches = fourMatches ∧
    (∃ v, matchSectionView false fourMatches = some v ∧
      v.header_count = fourMatches.length ∧ v.visible.length ≤ 3) := by
  have h : fourMatches ≠ [] := by decide
  exact ⟨h, collapsed_section_cap fourMatches h⟩

/-- C10: the rendered membership and order of every tier section on the
results page are independent of the selected sortBy option: the sortBy
state is never applied to the match lists before rendering. -/
theorem sections_ignore_sort_option (s1 s2 : SortOption) (r : MatchResults) :
    renderedSections s1 r = renderedSections s2 r := rfl

end GrantFinder
